import Mathlib

/-!
Shallow embedding of the whisper-rust-binding streaming core
(`src/flutter_transcriber.rs`, `src/flutter_api.rs`) and proofs about it.

Modelling conventions:
* `f32`/`f64` values (audio samples, latencies, similarity scores) are
  embedded as exact rationals `ℚ`; machine-float rounding is not modelled.
* Rust `u32`/`u64`/`usize` arithmetic is embedded as `Nat`; the code under
  study never overflows these widths on the inputs considered.
* The external inference collaborator (`transcribe_file`, which shells out
  to a separate executable and parses its stdout) is an oracle parameter of
  type `Except WhisperError (Option String)`: `.ok (some text)` stands for a
  run that parsed a non-empty transcription `text`, `.ok none` for a run
  whose parsed transcription was empty/absent, `.error e` for a failed
  external invocation.  Filesystem effects (temp WAV file creation and
  removal) are modelled as always succeeding.
* Wall-clock latency of one window is an oracle parameter `ℚ` (milliseconds),
  standing for `process_start.elapsed()`.
-/

namespace WhisperRust

/-- Error enum from `src/lib.rs` (`WhisperError`). -/
inductive WhisperError where
  | ModelInitError (msg : String)
  | InvalidModel (msg : String)
  | ProcessingError (msg : String)
  | InvalidParameter (msg : String)
  | InvalidAudioData
  | InternalError (msg : String)
deriving DecidableEq

/-- Configuration fields of `FlutterTranscriber` (`flutter_transcriber.rs`). -/
structure Config where
  sample_rate : Nat
  window_duration_ms : Nat
  overlap_duration_ms : Nat
  chunk_size_ms : Nat
  max_buffer_duration_ms : Nat
deriving DecidableEq

/-- `ProcessingStats` (`flutter_transcriber.rs` lines 37-45); the
`last_processing_time : Option<Instant>` field is wall-clock only and not
modelled. -/
structure ProcessingStats where
  total_processed_windows : Nat
  successful_transcriptions : Nat
  average_processing_time_ms : ℚ
  real_time_factor : ℚ
  buffer_overflows : Nat
deriving DecidableEq

/-- `ProcessingStats::default()` (lines 93-104). -/
def ProcessingStats.init : ProcessingStats :=
  { total_processed_windows := 0
    successful_transcriptions := 0
    average_processing_time_ms := 0
    real_time_factor := 0
    buffer_overflows := 0 }

/-- `BufferStatus` (lines 84-91); `last_chunk_time : Option<SystemTime>` is
wall-clock only and not modelled. -/
structure BufferStatus where
  current_duration_ms : Nat
  buffer_usage_percent : ℚ
  is_ready_for_processing : Bool
  samples_count : Nat
deriving DecidableEq

/-- Mutable state of one `FlutterTranscriber` session: the `VecDeque<f32>`
audio buffer (front = oldest sample), the watermark
`last_processed_samples`, the dispatcher busy flag `is_processing`, and the
stats. -/
structure TState where
  audio_buffer : List ℚ
  last_processed_samples : Nat
  is_processing : Bool
  processing_stats : ProcessingStats
deriving DecidableEq

/-- Fresh session state as built by `FlutterTranscriber::new` (lines 158-171). -/
def TState.init : TState :=
  { audio_buffer := []
    last_processed_samples := 0
    is_processing := false
    processing_stats := ProcessingStats.init }

/-- `max_samples` as computed in `add_audio_chunk` line 185:
`sample_rate * max_buffer_duration_ms / 1000`. -/
def maxSamples (c : Config) : Nat :=
  c.sample_rate * c.max_buffer_duration_ms / 1000

/-- `required_samples` / `window_size` as computed in lines 227 and 278:
`sample_rate * window_duration_ms / 1000`. -/
def windowSamples (c : Config) : Nat :=
  c.sample_rate * c.window_duration_ms / 1000

/-- `hop_samples` as computed in line 244:
`sample_rate * (window_duration_ms - overlap_duration_ms) / 1000`. -/
def hopSamples (c : Config) : Nat :=
  c.sample_rate * (c.window_duration_ms - c.overlap_duration_ms) / 1000

/-- Overlap expressed in samples, `sample_rate * overlap_duration_ms / 1000`
(the quantity the spec says the watermark retreats by). -/
def overlapSamples (c : Config) : Nat :=
  c.sample_rate * c.overlap_duration_ms / 1000

/-- The eviction loop of `add_audio_chunk` (lines 187-190):
`while buffer.len() > max_samples { buffer.pop_front(); overflow_count += 1 }`.
Returns the surviving buffer and the number of evicted samples. -/
def evictOverflow (max_samples : Nat) : List ℚ → List ℚ × Nat
  | [] => ([], 0)
  | x :: xs =>
    if max_samples < xs.length + 1 then
      let r := evictOverflow max_samples xs
      (r.1, r.2 + 1)
    else (x :: xs, 0)

/-- `FlutterTranscriber::add_audio_chunk` (lines 175-208): append the chunk,
evict the oldest samples down to capacity, bump `buffer_overflows` by one if
any sample was evicted, and report the buffer status. -/
def add_audio_chunk (c : Config) (s : TState) (audio_data : List ℚ) :
    TState × BufferStatus :=
  let buffer1 := s.audio_buffer ++ audio_data
  let er := evictOverflow (maxSamples c) buffer1
  let buffer2 := er.1
  let overflow_count := er.2
  let stats :=
    if 0 < overflow_count then
      { s.processing_stats with
          buffer_overflows := s.processing_stats.buffer_overflows + 1 }
    else s.processing_stats
  let current_duration_ms := buffer2.length * 1000 / c.sample_rate
  ({ s with audio_buffer := buffer2, processing_stats := stats },
   { current_duration_ms := current_duration_ms
     buffer_usage_percent := (buffer2.length : ℚ) / (maxSamples c : ℚ) * 100
     is_ready_for_processing := decide (c.window_duration_ms ≤ current_duration_ms)
     samples_count := buffer2.length })

/-- The eviction loop keeps the newest `max` samples and counts the evicted
oldest ones. -/
theorem evictOverflow_eq (max : Nat) (l : List ℚ) :
    evictOverflow max l = (l.drop (l.length - max), l.length - max) := by
  induction l with
  | nil => simp [evictOverflow]
  | cons x xs ih =>
    simp only [evictOverflow, List.length_cons]
    split
    · rename_i h
      rw [ih]
      have hx : xs.length + 1 - max = (xs.length - max) + 1 := by omega
      simp [hx]
    · rename_i h
      have hx : xs.length + 1 - max = 0 := by omega
      simp [hx]

/-- The fields of `TranscriptionResult` (lines 47-56) that the window
processing path actually computes from its inputs; the constant-filled
fields (`start_time_ms = 0`, `end_time_ms = window_duration_ms`,
`confidence = 0.95`, the estimated `words` list) are omitted. -/
structure TranscriptionResult where
  text : String
  processing_time_ms : ℚ
  is_real_time : Bool
deriving DecidableEq

/-- `FlutterTranscriber::update_stats` (lines 547-561): bump the window
counter, bump the success counter when `success`, fold the new latency into
the incremental mean, and set `real_time_factor` from the latest latency. -/
def update_stats (c : Config) (processing_time_ms : ℚ) (success : Bool)
    (stats : ProcessingStats) : ProcessingStats :=
  let total := stats.total_processed_windows + 1
  { total_processed_windows := total
    successful_transcriptions :=
      if success then stats.successful_transcriptions + 1
      else stats.successful_transcriptions
    average_processing_time_ms :=
      (stats.average_processing_time_ms * ((total : ℚ) - 1) + processing_time_ms)
        / (total : ℚ)
    real_time_factor := (c.window_duration_ms : ℚ) / processing_time_ms
    buffer_overflows := stats.buffer_overflows }

/-- `FlutterTranscriber::process_current_window` (lines 272-320).
`tr` is the outcome of the external `transcribe_file` invocation (see the
module comment); `processing_time_ms` is the elapsed latency oracle.  On an
external error the `?` operator propagates it before `update_stats` and the
watermark write are reached. -/
def process_current_window (c : Config) (tr : Except WhisperError (Option String))
    (processing_time_ms : ℚ) (s : TState) :
    TState × Except WhisperError (Option TranscriptionResult) :=
  if s.audio_buffer.length < windowSamples c then (s, .ok none)
  else
    match tr with
    | .error e => (s, .error e)
    | .ok res =>
      let stats := update_stats c processing_time_ms res.isSome s.processing_stats
      let s2 := { s with
                    processing_stats := stats
                    last_processed_samples := s.audio_buffer.length }
      match res with
      | some text =>
        (s2, .ok (some { text := text
                         processing_time_ms := processing_time_ms
                         is_real_time :=
                           decide (processing_time_ms < (c.window_duration_ms : ℚ)) }))
      | none => (s2, .ok none)

/-- `FlutterTranscriber::process_if_ready` (lines 211-269): reject when busy,
when the buffer holds less than a window, or when less than one hop of fresh
audio arrived since the watermark; otherwise set the busy flag, process the
window, and clear the flag again around whatever `process_current_window`
returned. -/
def process_if_ready (c : Config) (tr : Except WhisperError (Option String))
    (processing_time_ms : ℚ) (s : TState) :
    TState × Except WhisperError (Option TranscriptionResult) :=
  if s.is_processing then (s, .ok none)
  else if s.audio_buffer.length < windowSamples c then (s, .ok none)
  else if s.audio_buffer.length < s.last_processed_samples + hopSamples c then
    (s, .ok none)
  else
    let s1 := { s with is_processing := true }
    let pr := process_current_window c tr processing_time_ms s1
    ({ pr.1 with is_processing := false }, pr.2)

/-- The readiness test of `process_if_ready` (lines 222-251) as a predicate of
occupancy and watermark: enough samples for a window, and at least one hop of
samples beyond the watermark. -/
def pollReady (c : Config) (occupancy last_processed : Nat) : Bool :=
  decide (windowSamples c ≤ occupancy) &&
    decide (last_processed + hopSamples c ≤ occupancy)

/-- The watermark update of `process_current_window` (lines 306-311):
`*last_processed = buffer.len()` — the new watermark is the full occupancy. -/
def advanceMark (occupancy : Nat) : Nat := occupancy

/-- Folding a run of `(latency, success)` observations through
`update_stats`, oldest first — the "record" sequence of §4.4 of the spec. -/
def record_sequence (c : Config) (ps : List (ℚ × Bool))
    (stats : ProcessingStats) : ProcessingStats :=
  ps.foldl (fun st p => update_stats c p.1 p.2 st) stats

/-- `ValidationType` (lines 76-82). -/
inductive ValidationType where
  | ExactMatch
  | FuzzyMatch
  | PhoneticMatch
  | NoMatch
deriving DecidableEq

/-- `ValidationResult` (lines 66-74). -/
structure ValidationResult where
  transcribed_word : String
  expected_word : String
  is_match : Bool
  similarity_score : ℚ
  suggestion : Option String
  validation_type : ValidationType
deriving DecidableEq

/-- The Arabic diacritic test of `clean_arabic_text` line 495:
`'\u{064B}'..='\u{065F}' | '\u{0670}' | '\u{06D6}'..='\u{06ED}'`. -/
def isArabicDiacritic (c : Char) : Bool :=
  (0x064B ≤ c.toNat && c.toNat ≤ 0x065F) || c.toNat == 0x0670 ||
    (0x06D6 ≤ c.toNat && c.toNat ≤ 0x06ED)

/-- Whitespace trim on a character list: drop leading and trailing
whitespace, as Rust's `str::trim` does (`Char.isWhitespace` covers the ASCII
whitespace the text of this system contains). -/
def trimChars (l : List Char) : List Char :=
  ((l.dropWhile Char.isWhitespace).reverse.dropWhile Char.isWhitespace).reverse

/-- `FlutterTranscriber::clean_arabic_text` (lines 492-499): drop diacritics,
trim, lower-case.  Trimming and lower-casing act on the character list;
`Char.toLower` covers the ASCII letter range, on which Rust's
`to_lowercase` agrees (both are identities on Arabic script). -/
def clean_arabic_text (text : String) : String :=
  String.mk (List.map Char.toLower
    (trimChars (text.data.filter fun c => !isArabicDiacritic c)))

/-- The DP recurrence of `levenshtein_distance` (lines 520-545):
`levMatrix c1 c2 fuel i j` is `matrix[i][j]` of the source, the edit distance
between the first `i` chars of `c1` and the first `j` chars of `c2`
(base rows `matrix[i][0] = i`, `matrix[0][j] = j`; the inner cell takes the
minimum of deletion, insertion, and substitution with cost 0/1).  The `fuel`
argument only makes the recursion structural; every call strictly decreases
`i + j`, so any `fuel ≥ i + j` reproduces the source matrix, and
`levenshtein_distance` below supplies exactly that. -/
def levMatrix (chars1 chars2 : List Char) : Nat → Nat → Nat → Nat
  | _, i, 0 => i
  | _, 0, j + 1 => j + 1
  | 0, _ + 1, _ + 1 => 0
  | fuel + 1, i + 1, j + 1 =>
    min (levMatrix chars1 chars2 fuel i (j + 1) + 1)
      (min (levMatrix chars1 chars2 fuel (i + 1) j + 1)
        (levMatrix chars1 chars2 fuel i j +
          if chars1.getD i ' ' = chars2.getD j ' ' then 0 else 1))

/-- `FlutterTranscriber::levenshtein_distance` (lines 520-545) on whole
strings, counted in Unicode code points (`chars()` ↔ `String.data`). -/
def levenshtein_distance (s1 s2 : String) : Nat :=
  levMatrix s1.data s2.data (s1.data.length + s2.data.length)
    s1.data.length s2.data.length

/-- The fuel of `levMatrix` is irrelevant as long as it dominates `i + j`:
any two sufficient fuels compute the same matrix cell, so
`levenshtein_distance` is exactly the source's DP. -/
theorem levMatrix_fuel (c1 c2 : List Char) :
    ∀ fuel fuel2 i j, i + j ≤ fuel → i + j ≤ fuel2 →
      levMatrix c1 c2 fuel i j = levMatrix c1 c2 fuel2 i j := by
  intro fuel
  induction fuel with
  | zero =>
    intro fuel2 i j h1 _
    have hi : i = 0 := by omega
    have hj : j = 0 := by omega
    subst hi; subst hj
    cases fuel2 <;> rfl
  | succ f ih =>
    intro fuel2 i j h1 h2
    cases i with
    | zero =>
      cases j with
      | zero => cases fuel2 <;> rfl
      | succ j =>
        cases fuel2 with
        | zero => omega
        | succ f2 => rfl
    | succ i =>
      cases j with
      | zero => cases fuel2 <;> rfl
      | succ j =>
        cases fuel2 with
        | zero => omega
        | succ f2 =>
          simp only [levMatrix]
          rw [ih f2 i (j + 1) (by omega) (by omega),
            ih f2 (i + 1) j (by omega) (by omega),
            ih f2 i j (by omega) (by omega)]

/-- `FlutterTranscriber::calculate_similarity` (lines 501-518). -/
def calculate_similarity (text1 text2 : String) : ℚ :=
  let len1 := text1.data.length
  let len2 := text2.data.length
  if len1 = 0 ∧ len2 = 0 then 1
  else if len1 = 0 ∨ len2 = 0 then 0
  else 1 - (levenshtein_distance text1 text2 : ℚ) / ((max len1 len2 : Nat) : ℚ)

/-- `FlutterTranscriber::validate_transcription` (lines 421-456). -/
def validate_transcription (transcribed expected : String) : ValidationResult :=
  let transcribed_clean := clean_arabic_text transcribed
  let expected_clean := clean_arabic_text expected
  if transcribed_clean = expected_clean then
    { transcribed_word := transcribed
      expected_word := expected
      is_match := true
      similarity_score := 1
      suggestion := none
      validation_type := .ExactMatch }
  else
    let similarity := calculate_similarity transcribed_clean expected_clean
    { transcribed_word := transcribed
      expected_word := expected
      is_match := decide ((4 : ℚ)/5 < similarity)
      similarity_score := similarity
      suggestion := if similarity < (4 : ℚ)/5 then some expected else none
      validation_type :=
        if (4 : ℚ)/5 < similarity then .FuzzyMatch
        else if (3 : ℚ)/5 < similarity then .PhoneticMatch
        else .NoMatch }

/-- A `FlutterTranscriber` instance as stored in the registry: its immutable
configuration plus its mutable session state.  `model_path` and `language`
are carried along as the source does. -/
structure FlutterTranscriber where
  config : Config
  model_path : String
  language : String
  state : TState
deriving DecidableEq

/-- `FlutterTranscriber::new` (lines 108-172).  `model_ok` is the oracle for
the external checks (model file exists, test model load succeeds, temp dir
creation succeeds); the parameter validation happens before any of those. -/
def FlutterTranscriber.new (model_ok : Bool) (model_path language : String)
    (sample_rate window_duration_ms overlap_duration_ms chunk_size_ms : Nat) :
    Except WhisperError FlutterTranscriber :=
  if window_duration_ms ≤ overlap_duration_ms then
    .error (.InvalidParameter "Overlap duration must be less than window duration")
  else if window_duration_ms / 4 < chunk_size_ms then
    .error (.InvalidParameter "Chunk size should be at most 1/4 of window duration")
  else if model_ok = false then
    .error (.ModelInitError ("Model file not found: " ++ model_path))
  else
    .ok { config := { sample_rate := sample_rate
                      window_duration_ms := window_duration_ms
                      overlap_duration_ms := overlap_duration_ms
                      chunk_size_ms := chunk_size_ms
                      max_buffer_duration_ms := window_duration_ms * 5 }
          model_path := model_path
          language := language
          state := TState.init }

/-- `FrbTranscriberConfig` (`flutter_api.rs` lines 53-60). -/
structure FrbTranscriberConfig where
  model_path : String
  language : String
  sample_rate : Nat
  window_duration_ms : Nat
  overlap_duration_ms : Nat
  chunk_size_ms : Nat
deriving DecidableEq

/-- The global `TRANSCRIBER_INSTANCES: HashMap<String, FlutterTranscriber>`
of `flutter_api.rs`, as a key-unique association list. -/
def Registry := List (String × FlutterTranscriber)

/-- `HashMap::get` on the registry. -/
def lookupInstance (reg : Registry) (id : String) : Option FlutterTranscriber :=
  (List.find? (fun p => p.1 == id) reg).map (fun p => p.2)

/-- `HashMap::insert` on the registry: binds `id` to `t`, replacing any
existing binding for `id`. -/
def insertInstance (reg : Registry) (id : String) (t : FlutterTranscriber) :
    Registry :=
  (id, t) :: List.filter (fun p => !(p.1 == id)) reg

/-- `FlutterTranscriberApi::create_transcriber` (`flutter_api.rs` lines
78-97): build the transcriber and insert it under `instance_id`; on a
construction error leave the registry alone.  The source wraps the outcome
in formatted `Result<String, String>` messages; the embedding keeps the
underlying `WhisperError` instead of its formatted text. -/
def create_transcriber (model_ok : Bool) (reg : Registry) (instance_id : String)
    (cfg : FrbTranscriberConfig) : Registry × Except WhisperError Unit :=
  match FlutterTranscriber.new model_ok cfg.model_path cfg.language
      cfg.sample_rate cfg.window_duration_ms cfg.overlap_duration_ms
      cfg.chunk_size_ms with
  | .ok t => (insertInstance reg instance_id t, .ok ())
  | .error e => (reg, .error e)

/-! Concrete sessions and configurations used by counterexamples and
witnesses. -/

/-- The spec's scenario configuration: 16000 Hz, 2 s windows, 0.5 s overlap,
50 ms chunks, 10 s maximum buffer (`window_duration_ms * 5`). -/
def scenarioConfig : Config :=
  { sample_rate := 16000, window_duration_ms := 2000, overlap_duration_ms := 500
    chunk_size_ms := 50, max_buffer_duration_ms := 10000 }

/-- A small-capacity configuration: 4 Hz with a 1 s maximum buffer gives a
capacity of 4 samples. -/
def smallConfig : Config :=
  { sample_rate := 4, window_duration_ms := 1000, overlap_duration_ms := 500
    chunk_size_ms := 50, max_buffer_duration_ms := 1000 }

/-- A small dispatch-ready configuration: 1000 Hz, 2 ms window, 1 ms overlap,
so `windowSamples = 2`, `hopSamples = 1`, `overlapSamples = 1`. -/
def dispatchConfig : Config :=
  { sample_rate := 1000, window_duration_ms := 2, overlap_duration_ms := 1
    chunk_size_ms := 0, max_buffer_duration_ms := 10 }

/-- A degenerate but constructor-accepted configuration (100 Hz, 5 ms window,
no overlap, 1 ms chunks): `windowSamples = 100*5/1000 = 0` and
`hopSamples = 100*5/1000 = 0`. -/
def degenerateConfig : Config :=
  { sample_rate := 100, window_duration_ms := 5, overlap_duration_ms := 0
    chunk_size_ms := 1, max_buffer_duration_ms := 25 }

/-- A session holding exactly one window (2 samples) for `dispatchConfig`,
watermark 0, idle. -/
def readyState : TState :=
  { audio_buffer := [0, 0], last_processed_samples := 0, is_processing := false
    processing_stats := ProcessingStats.init }

/-- An idle session marked busy. -/
def busyState : TState :=
  { audio_buffer := [0, 0], last_processed_samples := 0, is_processing := true
    processing_stats := ProcessingStats.init }

/-! Shared characterization lemmas for the dispatch path. -/

/-- A ready, idle session whose external call parses to `res` runs the full
dispatch: stats are folded in, the watermark jumps to the buffer length, and
the busy flag ends clear. -/
theorem process_if_ready_ok (c : Config) (res : Option String) (t : ℚ) (s : TState)
    (hb : s.is_processing = false)
    (hw : windowSamples c ≤ s.audio_buffer.length)
    (hh : s.last_processed_samples + hopSamples c ≤ s.audio_buffer.length) :
    process_if_ready c (.ok res) t s =
      ({ s with
           processing_stats := update_stats c t res.isSome s.processing_stats
           last_processed_samples := s.audio_buffer.length },
       match res with
       | some text =>
         .ok (some { text := text
                     processing_time_ms := t
                     is_real_time := decide (t < (c.window_duration_ms : ℚ)) })
       | none => .ok none) := by
  obtain ⟨buf, last, busy, st⟩ := s
  simp only at hb hw hh
  subst hb
  simp only [process_if_ready, process_current_window, Bool.false_eq_true,
    if_false, Nat.not_lt.mpr hw, Nat.not_lt.mpr hh]
  cases res <;> rfl

/-- A ready, idle session whose external call fails propagates the error and
returns with the state exactly as it started (busy flag clear, stats and
watermark untouched). -/
theorem process_if_ready_err (c : Config) (e : WhisperError) (t : ℚ) (s : TState)
    (hb : s.is_processing = false)
    (hw : windowSamples c ≤ s.audio_buffer.length)
    (hh : s.last_processed_samples + hopSamples c ≤ s.audio_buffer.length) :
    process_if_ready c (.error e) t s = (s, .error e) := by
  obtain ⟨buf, last, busy, st⟩ := s
  simp only at hb hw hh
  subst hb
  simp only [process_if_ready, process_current_window, Bool.false_eq_true,
    if_false, Nat.not_lt.mpr hw, Nat.not_lt.mpr hh]

/-! Claim theorems. -/

/-- Claim C1 (amended): after every `add_audio_chunk` call the buffer holds at
most `maxSamples` samples, and `buffer_overflows` increments by exactly 1 when
the call evicts at least one sample (regardless of how many samples were
evicted) and by 0 otherwise. -/
theorem add_audio_chunk_capacity_overflow (c : Config) (s : TState)
    (audio_data : List ℚ) :
    (add_audio_chunk c s audio_data).1.audio_buffer.length ≤ maxSamples c ∧
    (add_audio_chunk c s audio_data).1.processing_stats.buffer_overflows =
      s.processing_stats.buffer_overflows +
        (if maxSamples c < s.audio_buffer.length + audio_data.length then 1
         else 0) := by
  simp only [add_audio_chunk, evictOverflow_eq, List.length_append,
    List.length_drop]
  constructor
  · omega
  · split
    · rename_i h
      rw [if_pos (by omega)]
    · rename_i h
      rw [if_neg (by omega)]
      omega

/-- Claim C1 (counterexample to the claim as stated): in the spec's scenario
(16000 Hz, 10 s maximum buffer, hence capacity 160000), appending 170000 zero
samples to an empty session leaves exactly 160000 samples — but
`buffer_overflows` becomes 1, not the 10000 the claim asserts, because the
code bumps the counter once per overflowing call rather than once per evicted
sample. -/
theorem overflow_scenario_counterexample :
    (add_audio_chunk scenarioConfig TState.init
        (List.replicate 170000 0)).1.audio_buffer.length = 160000 ∧
    (add_audio_chunk scenarioConfig TState.init
        (List.replicate 170000 0)).1.processing_stats.buffer_overflows = 1 ∧
    (add_audio_chunk scenarioConfig TState.init
        (List.replicate 170000 0)).1.processing_stats.buffer_overflows ≠ 10000 := by
  have hmax : maxSamples scenarioConfig = 160000 := by decide
  simp only [add_audio_chunk, evictOverflow_eq, hmax, TState.init,
    List.length_append, List.length_replicate, List.length_drop,
    List.nil_append, List.length_nil, ProcessingStats.init]
  norm_num

/-- Claim C2 (amended): on a dispatch whose external call returns `Ok`, the
watermark `last_processed_samples` advances to exactly the current occupancy
(the full buffer length), not to `occupancy - overlapSamples`; the buffer
itself is untouched. -/
theorem watermark_advance_full_occupancy (c : Config) (res : Option String)
    (t : ℚ) (s : TState)
    (hb : s.is_processing = false)
    (hw : windowSamples c ≤ s.audio_buffer.length)
    (hh : s.last_processed_samples + hopSamples c ≤ s.audio_buffer.length) :
    (process_if_ready c (.ok res) t s).1.last_processed_samples =
      s.audio_buffer.length ∧
    (process_if_ready c (.ok res) t s).1.audio_buffer = s.audio_buffer := by
  rw [process_if_ready_ok c res t s hb hw hh]
  exact ⟨rfl, rfl⟩

/-- Claim C2 witness: `watermark_advance_full_occupancy` instantiated on
`dispatchConfig` with a 2-sample buffer. -/
theorem watermark_advance_full_occupancy_witness :
    readyState.is_processing = false ∧
    windowSamples dispatchConfig ≤ readyState.audio_buffer.length ∧
    (process_if_ready dispatchConfig (.ok (some "text")) 7
        readyState).1.last_processed_samples = readyState.audio_buffer.length := by
  refine ⟨rfl, by decide, ?_⟩
  exact (watermark_advance_full_occupancy dispatchConfig (some "text") 7 readyState
    rfl (by decide) (by decide)).1

/-- Claim C2 (counterexample to the claim as stated): with a 2-sample window,
1-sample overlap (`dispatchConfig`) and a full 2-sample buffer, a dispatched
window leaves the watermark at 2 — the full occupancy — and not at
`occupancy - overlapSamples = 1` as the claim requires. -/
theorem watermark_overlap_counterexample :
    (process_if_ready dispatchConfig (.ok none) 100
        readyState).1.last_processed_samples = 2 ∧
    readyState.audio_buffer.length - overlapSamples dispatchConfig = 1 ∧
    (process_if_ready dispatchConfig (.ok none) 100
        readyState).1.last_processed_samples ≠
      readyState.audio_buffer.length - overlapSamples dispatchConfig := by
  refine ⟨by decide, by decide, by decide⟩

/-- Claim C3 (amended): the stats are updated exactly once per dispatch whose
external call returns `Ok` — `total_processed_windows` increments by 1 and
`successful_transcriptions` increments by 1 exactly when non-empty text was
parsed — but a dispatch whose external call fails updates the stats zero
times. -/
theorem stats_update_on_ok_only (c : Config) (res : Option String)
    (e : WhisperError) (t : ℚ) (s : TState)
    (hb : s.is_processing = false)
    (hw : windowSamples c ≤ s.audio_buffer.length)
    (hh : s.last_processed_samples + hopSamples c ≤ s.audio_buffer.length) :
    (process_if_ready c (.ok res) t s).1.processing_stats.total_processed_windows =
      s.processing_stats.total_processed_windows + 1 ∧
    (process_if_ready c (.ok res) t s).1.processing_stats.successful_transcriptions =
      s.processing_stats.successful_transcriptions +
        (if res.isSome then 1 else 0) ∧
    (process_if_ready c (.error e) t s).1.processing_stats =
      s.processing_stats := by
  rw [process_if_ready_ok c res t s hb hw hh,
    process_if_ready_err c e t s hb hw hh]
  refine ⟨rfl, ?_, rfl⟩
  simp only [update_stats]
  split <;> simp

/-- Claim C3 witness: `stats_update_on_ok_only` instantiated on
`dispatchConfig` and `readyState`. -/
theorem stats_update_on_ok_only_witness :
    readyState.is_processing = false ∧
    (process_if_ready dispatchConfig (.ok (some "bismillah")) 3
        readyState).1.processing_stats.total_processed_windows =
      readyState.processing_stats.total_processed_windows + 1 := by
  refine ⟨rfl, ?_⟩
  exact (stats_update_on_ok_only dispatchConfig (some "bismillah")
    (.ProcessingError "unused") 3 readyState rfl (by decide) (by decide)).1

/-- Claim C3 (counterexample to the claim as stated): a dispatch attempt whose
external transcription call fails surfaces the error to the caller but leaves
`total_processed_windows` at 0 — the claim requires it to increment to 1 on
every attempt. -/
theorem stats_skipped_on_error_counterexample :
    (process_if_ready dispatchConfig (.error (.ProcessingError "whisper failed"))
        100 readyState).2 = .error (.ProcessingError "whisper failed") ∧
    (process_if_ready dispatchConfig (.error (.ProcessingError "whisper failed"))
        100 readyState).1.processing_stats.total_processed_windows = 0 ∧
    (process_if_ready dispatchConfig (.error (.ProcessingError "whisper failed"))
        100 readyState).1.processing_stats.total_processed_windows ≠ 1 := by
  refine ⟨by rfl, by decide, by decide⟩

/-- Claim C7 (confirmed): a dispatch requested while the busy flag is set
returns `None` immediately and leaves the whole session state — stats
included — unchanged. -/
theorem busy_drop_property (c : Config) (tr : Except WhisperError (Option String))
    (t : ℚ) (s : TState) (hb : s.is_processing = true) :
    process_if_ready c tr t s = (s, .ok none) := by
  simp [process_if_ready, hb]

/-- Claim C7 witness: `busy_drop_property` on a busy session. -/
theorem busy_drop_property_witness :
    busyState.is_processing = true ∧
    process_if_ready scenarioConfig (.ok (some "text")) 5 busyState =
      (busyState, .ok none) := by
  exact ⟨rfl, busy_drop_property scenarioConfig (.ok (some "text")) 5 busyState rfl⟩

/-- Claim C8 (confirmed): starting from an idle session, every
`process_if_ready` call — including one whose external transcription step
fails with a `ProcessingError` — ends with the busy flag clear; on the failing
path the session state comes back exactly as it was, with the error
surfaced. -/
theorem busy_flag_cleared_on_error (c : Config)
    (tr : Except WhisperError (Option String)) (t : ℚ) (s : TState)
    (hb : s.is_processing = false) :
    (process_if_ready c tr t s).1.is_processing = false ∧
    (∀ e, windowSamples c ≤ s.audio_buffer.length →
      s.last_processed_samples + hopSamples c ≤ s.audio_buffer.length →
      process_if_ready c (.error e) t s = (s, .error e)) := by
  constructor
  · simp only [process_if_ready, hb, Bool.false_eq_true, if_false]
    split
    · exact hb
    · split
      · exact hb
      · rfl
  · intro e hw hh
    exact process_if_ready_err c e t s hb hw hh

/-- Claim C8 witness: `busy_flag_cleared_on_error` on a ready session with a
failing external call. -/
theorem busy_flag_cleared_on_error_witness :
    readyState.is_processing = false ∧
    (process_if_ready dispatchConfig (.error (.ProcessingError "timeout")) 9
        readyState).1.is_processing = false := by
  exact ⟨rfl, (busy_flag_cleared_on_error dispatchConfig
    (.error (.ProcessingError "timeout")) 9 readyState rfl).1⟩

/-- Claim C9 (amended): provided the hop is at least one sample
(`1 ≤ hopSamples c`, which holds whenever
`sample_rate * (window - overlap) ≥ 1000 ms·Hz`), a readiness poll that
reports a window, followed by the watermark advance, reports no window at the
same occupancy; end-to-end, immediately after a successful dispatch a second
`process_if_ready` at the same occupancy changes nothing and returns no
result. -/
theorem no_duplicate_dispatch (c : Config) (hhop : 1 ≤ hopSamples c) :
    (∀ occupancy last_processed,
      pollReady c occupancy last_processed = true →
      pollReady c occupancy (advanceMark occupancy) = false) ∧
    (∀ (res : Option String) (t t2 : ℚ)
      (tr2 : Except WhisperError (Option String)) (s : TState),
      s.is_processing = false →
      windowSamples c ≤ s.audio_buffer.length →
      s.last_processed_samples + hopSamples c ≤ s.audio_buffer.length →
      process_if_ready c tr2 t2 ((process_if_ready c (.ok res) t s).1) =
        ((process_if_ready c (.ok res) t s).1, .ok none)) := by
  constructor
  · intro occupancy last_processed _
    simp only [pollReady, advanceMark, Bool.and_eq_false_iff,
      decide_eq_false_iff_not, Nat.not_le]
    right
    omega
  · intro res t t2 tr2 s hb hw hh
    rw [process_if_ready_ok c res t s hb hw hh]
    simp only [process_if_ready]
    rw [if_neg (by simp [hb]), if_neg (Nat.not_lt.mpr hw),
      if_pos (by omega)]

/-- Claim C9 witness: `no_duplicate_dispatch` on `dispatchConfig`
(`hopSamples = 1`): occupancy 2 with watermark 0 is ready, and after the
advance it is not. -/
theorem no_duplicate_dispatch_witness :
    1 ≤ hopSamples dispatchConfig ∧
    pollReady dispatchConfig 2 0 = true ∧
    pollReady dispatchConfig 2 (advanceMark 2) = false := by
  exact ⟨by decide, by decide,
    (no_duplicate_dispatch dispatchConfig (by decide)).1 2 0 (by decide)⟩

/-- Claim C9 (counterexample to the claim as stated): `degenerateConfig`
(100 Hz, 5 ms window, no overlap) passes every constructor check but has
`hopSamples = 0`, so a poll that reports a window still reports one after the
watermark advance, and two back-to-back `process_if_ready` calls at the same
occupancy both dispatch (`total_processed_windows` reaches 2). -/
theorem degenerate_hop_duplicate_counterexample :
    pollReady degenerateConfig 0 0 = true ∧
    pollReady degenerateConfig 0 (advanceMark 0) = true ∧
    pollReady degenerateConfig 0 (advanceMark 0) ≠ false ∧
    (process_if_ready degenerateConfig (.ok none) 1
        ((process_if_ready degenerateConfig (.ok none) 1
          TState.init).1)).1.processing_stats.total_processed_windows = 2 := by
  refine ⟨by decide, by decide, by decide, by decide⟩

/-- Claim C10 (confirmed): constructing a transcriber whose
`chunk_size_ms` exceeds `window_duration_ms / 4` (integer division) fails
with an `InvalidParameter` error, and `create_transcriber` registers nothing
for it — the registry is returned unchanged with an error. -/
theorem chunk_size_validation (model_ok : Bool) (cfg : FrbTranscriberConfig)
    (reg : Registry) (instance_id : String)
    (h : cfg.window_duration_ms / 4 < cfg.chunk_size_ms) :
    (∃ msg, FlutterTranscriber.new model_ok cfg.model_path cfg.language
        cfg.sample_rate cfg.window_duration_ms cfg.overlap_duration_ms
        cfg.chunk_size_ms = .error (.InvalidParameter msg)) ∧
    (create_transcriber model_ok reg instance_id cfg).1 = reg ∧
    (∃ e, (create_transcriber model_ok reg instance_id cfg).2 = .error e) := by
  by_cases hov : cfg.window_duration_ms ≤ cfg.overlap_duration_ms
  · refine ⟨⟨"Overlap duration must be less than window duration", ?_⟩, ?_, ?_⟩
    · simp [FlutterTranscriber.new, hov]
    · simp [create_transcriber, FlutterTranscriber.new, hov]
    · exact ⟨.InvalidParameter "Overlap duration must be less than window duration",
        by simp [create_transcriber, FlutterTranscriber.new, hov]⟩
  · refine ⟨⟨"Chunk size should be at most 1/4 of window duration", ?_⟩, ?_, ?_⟩
    · simp [FlutterTranscriber.new, hov, h]
    · simp [create_transcriber, FlutterTranscriber.new, hov, h]
    · exact ⟨.InvalidParameter "Chunk size should be at most 1/4 of window duration",
        by simp [create_transcriber, FlutterTranscriber.new, hov, h]⟩

/-- Claim C10 witness: `chunk_size_validation` at a 2000 ms window with a
600 ms chunk (`2000 / 4 = 500 < 600`). -/
theorem chunk_size_validation_witness :
    (2000 : Nat) / 4 < 600 ∧
    (∃ msg, FlutterTranscriber.new true "model.bin" "ar" 16000 2000 500 600 =
      .error (.InvalidParameter msg)) := by
  have h := chunk_size_validation true
    { model_path := "model.bin", language := "ar", sample_rate := 16000
      window_duration_ms := 2000, overlap_duration_ms := 500
      chunk_size_ms := 600 } [] "session" (by decide)
  exact ⟨by decide, h.1⟩

/-- Claim C5 (amended): whenever construction succeeds, `create_transcriber`
registers the new instance under the requested id unconditionally — it never
checks for an existing binding, so a duplicate id silently replaces the
registered instance instead of failing with an already-exists error. -/
theorem create_transcriber_replaces (model_ok : Bool) (reg : Registry)
    (instance_id : String) (cfg : FrbTranscriberConfig) (t : FlutterTranscriber)
    (hnew : FlutterTranscriber.new model_ok cfg.model_path cfg.language
      cfg.sample_rate cfg.window_duration_ms cfg.overlap_duration_ms
      cfg.chunk_size_ms = .ok t) :
    create_transcriber model_ok reg instance_id cfg =
      (insertInstance reg instance_id t, .ok ()) ∧
    lookupInstance (create_transcriber model_ok reg instance_id cfg).1
      instance_id = some t := by
  have hcr : create_transcriber model_ok reg instance_id cfg =
      (insertInstance reg instance_id t, .ok ()) := by
    simp [create_transcriber, hnew]
  refine ⟨hcr, ?_⟩
  rw [hcr]
  simp [lookupInstance, insertInstance, List.find?]

/-- A valid creation config with a 2000 ms window. -/
def demoCfgA : FrbTranscriberConfig :=
  { model_path := "model.bin", language := "ar", sample_rate := 16000
    window_duration_ms := 2000, overlap_duration_ms := 500, chunk_size_ms := 50 }

/-- The same config with a 3000 ms window. -/
def demoCfgB : FrbTranscriberConfig :=
  { model_path := "model.bin", language := "ar", sample_rate := 16000
    window_duration_ms := 3000, overlap_duration_ms := 500, chunk_size_ms := 50 }

/-- The transcriber instance `FlutterTranscriber::new` builds from
`demoCfgA` (maximum buffer = window × 5). -/
def demoTranscriberA : FlutterTranscriber :=
  { config := { sample_rate := 16000, window_duration_ms := 2000
                overlap_duration_ms := 500, chunk_size_ms := 50
                max_buffer_duration_ms := 10000 }
    model_path := "model.bin", language := "ar", state := TState.init }

/-- Claim C5 witness: `create_transcriber_replaces` on an empty registry with
`demoCfgA`. -/
theorem create_transcriber_replaces_witness :
    FlutterTranscriber.new true demoCfgA.model_path demoCfgA.language
      demoCfgA.sample_rate demoCfgA.window_duration_ms
      demoCfgA.overlap_duration_ms demoCfgA.chunk_size_ms = .ok demoTranscriberA ∧
    lookupInstance (create_transcriber true [] "quran" demoCfgA).1 "quran" =
      some demoTranscriberA := by
  exact ⟨by rfl,
    (create_transcriber_replaces true [] "quran" demoCfgA demoTranscriberA
      (by rfl)).2⟩

/-- Claim C5 (counterexample to the claim as stated): creating "quran" with a
2000 ms window and then creating "quran" again with a 3000 ms window makes
the second call return success — not an already-exists error — and the
registered instance now has the 3000 ms window: the existing session was
silently replaced. -/
theorem duplicate_create_counterexample :
    (lookupInstance (create_transcriber true [] "quran" demoCfgA).1
        "quran").map (fun t => t.config.window_duration_ms) = some 2000 ∧
    (create_transcriber true (create_transcriber true [] "quran" demoCfgA).1
        "quran" demoCfgB).2 = .ok () ∧
    (lookupInstance (create_transcriber true
        (create_transcriber true [] "quran" demoCfgA).1 "quran"
        demoCfgB).1 "quran").map (fun t => t.config.window_duration_ms) =
      some 3000 ∧
    (lookupInstance (create_transcriber true
        (create_transcriber true [] "quran" demoCfgA).1 "quran"
        demoCfgB).1 "quran").map (fun t => t.config.window_duration_ms) ≠
      (lookupInstance (create_transcriber true [] "quran" demoCfgA).1
        "quran").map (fun t => t.config.window_duration_ms) := by
  refine ⟨by rfl, by rfl, by rfl, by decide⟩

/-- Folding observations adds their count to the window counter. -/
theorem record_sequence_total (c : Config) (ps : List (ℚ × Bool)) :
    ∀ st : ProcessingStats,
      (record_sequence c ps st).total_processed_windows =
        st.total_processed_windows + ps.length := by
  induction ps with
  | nil => intro st; simp [record_sequence]
  | cons p ps ih =>
    intro st
    simp only [record_sequence, List.foldl_cons] at *
    rw [ih]
    simp only [update_stats, List.length_cons]
    omega

/-- Folding observations adds the number of successes to the success
counter. -/
theorem record_sequence_successes (c : Config) (ps : List (ℚ × Bool)) :
    ∀ st : ProcessingStats,
      (record_sequence c ps st).successful_transcriptions =
        st.successful_transcriptions + (ps.filter (fun p => p.2)).length := by
  induction ps with
  | nil => intro st; simp [record_sequence]
  | cons p ps ih =>
    intro st
    simp only [record_sequence, List.foldl_cons] at *
    rw [ih]
    cases hp : p.2
    · simp [update_stats, hp, List.filter_cons]
    · simp [update_stats, hp, List.filter_cons]
      omega

/-- The running average times the running count is the running sum: the
incremental-mean update of `update_stats` accumulates exactly the latency
sum. -/
theorem record_sequence_average_mul (c : Config) (ps : List (ℚ × Bool)) :
    ∀ st : ProcessingStats,
      (record_sequence c ps st).average_processing_time_ms *
          ((st.total_processed_windows + ps.length : Nat) : ℚ) =
        st.average_processing_time_ms * (st.total_processed_windows : ℚ) +
          (ps.map Prod.fst).sum := by
  induction ps with
  | nil => intro st; simp [record_sequence]
  | cons p ps ih =>
    intro st
    simp only [record_sequence, List.foldl_cons, List.length_cons,
      List.map_cons, List.sum_cons] at *
    have htot : (update_stats c p.1 p.2 st).total_processed_windows =
        st.total_processed_windows + 1 := rfl
    have hrw := ih (update_stats c p.1 p.2 st)
    rw [htot] at hrw
    have harr : st.total_processed_windows + (ps.length + 1) =
        st.total_processed_windows + 1 + ps.length := by omega
    rw [harr, hrw]
    have havg : (update_stats c p.1 p.2 st).average_processing_time_ms =
        (st.average_processing_time_ms *
            (((st.total_processed_windows + 1 : Nat) : ℚ) - 1) + p.1) /
          ((st.total_processed_windows + 1 : Nat) : ℚ) := rfl
    rw [havg]
    have hne : ((st.total_processed_windows + 1 : Nat) : ℚ) ≠ 0 := by
      push_cast
      positivity
    field_simp
    ring

/-- The `real_time_factor` after a fold is the window duration over the last
recorded latency. -/
theorem record_sequence_rtf (c : Config) (ps : List (ℚ × Bool)) (h : ps ≠ []) :
    ∀ st : ProcessingStats,
      (record_sequence c ps st).real_time_factor =
        (c.window_duration_ms : ℚ) / (ps.getLast h).1 := by
  induction ps with
  | nil => exact absurd rfl h
  | cons p ps ih =>
    intro st
    cases ps with
    | nil => rfl
    | cons q qs =>
      simp only [record_sequence, List.foldl_cons] at *
      rw [ih (by simp) _]
      rfl

/-- Claim C4 (amended): starting from fresh stats, after any non-empty run of
recorded `(latency, success)` observations the average latency equals the
arithmetic mean of all recorded latencies (the incremental-mean update is
exact), the window counter equals the number of observations — but
`real_time_factor` is the window duration divided by the most recent latency
alone, not by the updated average. -/
theorem average_latency_mean_rtf_latest (c : Config) (ps : List (ℚ × Bool))
    (hne : ps ≠ []) :
    (record_sequence c ps ProcessingStats.init).total_processed_windows =
      ps.length ∧
    (record_sequence c ps ProcessingStats.init).average_processing_time_ms =
      (ps.map Prod.fst).sum / (ps.length : ℚ) ∧
    (record_sequence c ps ProcessingStats.init).real_time_factor =
      (c.window_duration_ms : ℚ) / (ps.getLast hne).1 := by
  refine ⟨?_, ?_, record_sequence_rtf c ps hne ProcessingStats.init⟩
  · rw [record_sequence_total]
    simp [ProcessingStats.init]
  · have h := record_sequence_average_mul c ps ProcessingStats.init
    have h0 : ProcessingStats.init.total_processed_windows = 0 := rfl
    have ha : ProcessingStats.init.average_processing_time_ms = 0 := rfl
    rw [h0, ha] at h
    have hlen : ((ps.length : Nat) : ℚ) ≠ 0 := by
      have : ps.length ≠ 0 := by
        simpa [List.length_eq_zero] using hne
      exact_mod_cast this
    rw [eq_div_iff hlen]
    calc (record_sequence c ps ProcessingStats.init).average_processing_time_ms *
          ((ps.length : Nat) : ℚ)
      = (record_sequence c ps ProcessingStats.init).average_processing_time_ms *
          (((0 + ps.length : Nat) : Nat) : ℚ) := by norm_num
    _ = 0 * ((0 : Nat) : ℚ) + (ps.map Prod.fst).sum := h
    _ = (ps.map Prod.fst).sum := by ring

/-- Claim C4 witness: `average_latency_mean_rtf_latest` on the two-element
run `[(2, success), (4, failure)]`: the average is `(2 + 4) / 2 = 3`. -/
theorem average_latency_mean_rtf_latest_witness :
    ([((2 : ℚ), true), ((4 : ℚ), false)] : List (ℚ × Bool)) ≠ [] ∧
    (record_sequence scenarioConfig [((2 : ℚ), true), ((4 : ℚ), false)]
        ProcessingStats.init).average_processing_time_ms = 3 := by
  refine ⟨by simp, ?_⟩
  have h := (average_latency_mean_rtf_latest scenarioConfig
    [((2 : ℚ), true), ((4 : ℚ), false)] (by simp)).2.1
  rw [h]
  norm_num

/-- Claim C4 (counterexample to the claim as stated): recording latencies 100
then 300 (window 2000 ms) leaves the updated average at 200, so the claim
requires `real_time_factor = 2000 / 200 = 10`; the code computes
`2000 / 300 = 20/3` from the most recent latency alone. -/
theorem rtf_latest_latency_counterexample :
    (record_sequence scenarioConfig [((100 : ℚ), true), ((300 : ℚ), true)]
        ProcessingStats.init).average_processing_time_ms = 200 ∧
    (record_sequence scenarioConfig [((100 : ℚ), true), ((300 : ℚ), true)]
        ProcessingStats.init).real_time_factor = 20 / 3 ∧
    (record_sequence scenarioConfig [((100 : ℚ), true), ((300 : ℚ), true)]
        ProcessingStats.init).real_time_factor ≠
      (scenarioConfig.window_duration_ms : ℚ) /
        (record_sequence scenarioConfig [((100 : ℚ), true), ((300 : ℚ), true)]
          ProcessingStats.init).average_processing_time_ms := by
  have havg : (record_sequence scenarioConfig
      [((100 : ℚ), true), ((300 : ℚ), true)]
      ProcessingStats.init).average_processing_time_ms = 200 := by
    norm_num [record_sequence, List.foldl_cons, List.foldl_nil, update_stats,
      ProcessingStats.init]
  have hrtf : (record_sequence scenarioConfig
      [((100 : ℚ), true), ((300 : ℚ), true)]
      ProcessingStats.init).real_time_factor = 20 / 3 := by
    norm_num [record_sequence, List.foldl_cons, List.foldl_nil, update_stats,
      ProcessingStats.init, scenarioConfig]
  refine ⟨havg, hrtf, ?_⟩
  rw [havg, hrtf]
  norm_num [scenarioConfig]

/-- Claim C6 (amended): `validate_transcription` keeps both inputs verbatim;
it reports `ExactMatch` with similarity 1 exactly when the normalized texts
are equal; otherwise it scores by `calculate_similarity` (1 minus Levenshtein
distance over max code-point length), matches exactly when similarity exceeds
0.8 (kind `FuzzyMatch`), reports `PhoneticMatch` on (0.6, 0.8] and `NoMatch`
at or below 0.6 — and populates `suggestion` with the expected text only when
similarity is strictly below 0.8, so at similarity exactly 0.8 there is no
match and also no suggestion. -/
theorem validate_transcription_spec (t e : String) :
    (validate_transcription t e).transcribed_word = t ∧
    (validate_transcription t e).expected_word = e ∧
    ((validate_transcription t e).validation_type = .ExactMatch ↔
      clean_arabic_text t = clean_arabic_text e) ∧
    (validate_transcription t e).similarity_score =
      (if clean_arabic_text t = clean_arabic_text e then 1
       else calculate_similarity (clean_arabic_text t) (clean_arabic_text e)) ∧
    ((validate_transcription t e).is_match = true ↔
      (clean_arabic_text t = clean_arabic_text e ∨
        (4 : ℚ)/5 <
          calculate_similarity (clean_arabic_text t) (clean_arabic_text e))) ∧
    ((validate_transcription t e).validation_type = .FuzzyMatch ↔
      (clean_arabic_text t ≠ clean_arabic_text e ∧
        (4 : ℚ)/5 <
          calculate_similarity (clean_arabic_text t) (clean_arabic_text e))) ∧
    ((validate_transcription t e).validation_type = .PhoneticMatch ↔
      (clean_arabic_text t ≠ clean_arabic_text e ∧
        (3 : ℚ)/5 <
          calculate_similarity (clean_arabic_text t) (clean_arabic_text e) ∧
        calculate_similarity (clean_arabic_text t) (clean_arabic_text e) ≤
          (4 : ℚ)/5)) ∧
    ((validate_transcription t e).validation_type = .NoMatch ↔
      (clean_arabic_text t ≠ clean_arabic_text e ∧
        calculate_similarity (clean_arabic_text t) (clean_arabic_text e) ≤
          (3 : ℚ)/5)) ∧
    (validate_transcription t e).suggestion =
      (if clean_arabic_text t = clean_arabic_text e then none
       else if calculate_similarity (clean_arabic_text t)
           (clean_arabic_text e) < (4 : ℚ)/5 then some e
         else none) := by
  by_cases hc : clean_arabic_text t = clean_arabic_text e
  · simp [validate_transcription, hc]
  · by_cases h8 : (4 : ℚ)/5 <
        calculate_similarity (clean_arabic_text t) (clean_arabic_text e)
    · simp [validate_transcription, hc, h8, not_lt.mpr (le_of_lt h8)]
      linarith
    · by_cases h6 : (3 : ℚ)/5 <
          calculate_similarity (clean_arabic_text t) (clean_arabic_text e)
      · simp [validate_transcription, hc, h8, h6, not_lt.mp h8]
      · simp [validate_transcription, hc, h8, h6, not_lt.mp h6]

/-- Claim C6 (counterexample to the claim as stated): "abcde" against "abcdf"
normalizes to unequal texts at Levenshtein distance 1 over length 5, so
similarity is exactly 0.8: the result is not a match (0.8 is not > 0.8), yet
`suggestion` is `none` (0.8 is not < 0.8) — the claim requires the expected
text verbatim whenever the result is not a confident match. -/
theorem suggestion_boundary_counterexample :
    clean_arabic_text "abcde" ≠ clean_arabic_text "abcdf" ∧
    (validate_transcription "abcde" "abcdf").similarity_score = 4/5 ∧
    (validate_transcription "abcde" "abcdf").is_match = false ∧
    (validate_transcription "abcde" "abcdf").validation_type = .PhoneticMatch ∧
    (validate_transcription "abcde" "abcdf").suggestion = none ∧
    (validate_transcription "abcde" "abcdf").suggestion ≠ some "abcdf" := by
  have hc1 : clean_arabic_text "abcde" = "abcde" := by rfl
  have hc2 : clean_arabic_text "abcdf" = "abcdf" := by rfl
  have hne : clean_arabic_text "abcde" ≠ clean_arabic_text "abcdf" := by
    rw [hc1, hc2]
    decide
  have hlev : levenshtein_distance "abcde" "abcdf" = 1 := by rfl
  have hlen1 : ("abcde" : String).data.length = 5 := by rfl
  have hlen2 : ("abcdf" : String).data.length = 5 := by rfl
  have hsim : calculate_similarity "abcde" "abcdf" = 4/5 := by
    simp [calculate_similarity, hlev, hlen1, hlen2]
    norm_num
  have hlit : ("abcde" : String) ≠ "abcdf" := by decide
  refine ⟨hne, ?_, ?_, ?_, ?_, ?_⟩
  · norm_num [validate_transcription, hne, hc1, hc2, hsim, hlit]
  · norm_num [validate_transcription, hne, hc1, hc2, hsim, hlit]
  · norm_num [validate_transcription, hne, hc1, hc2, hsim, hlit]
  · norm_num [validate_transcription, hne, hc1, hc2, hsim, hlit]
  · norm_num [validate_transcription, hne, hc1, hc2, hsim, hlit]
    decide

end WhisperRust
